import Mathlib

/-!
Shallow embedding of `pytracker.py` (the pytracker client library) and of the
pieces of `main.py` the verified claims touch.

The XML wire format is modelled at the DOM level: a parsed `story` document is
the list of its child elements in document order, each element carrying its tag
name, its optional `type` attribute, and its text body.  An element whose body
is the empty string is exactly an element with no child nodes (this is what a
serialized empty element round-trips to through minidom), so
`firstChild.data` is modelled as the body when it is nonempty and as a failure
(`AttributeError` on `None.data`) when it is empty.

Python exceptions are modelled with `Option`/`Except`: a function that can
raise returns `none`/`.error` on the raising paths.
-/

/-- One XML element of a story document: tag name, optional `type` attribute
(minidom's `getAttribute` returns the empty string for a missing attribute,
modelled here as `none`), and the concatenated text of its child text nodes. -/
structure XmlElem where
  tag : String
  typeAttr : Option String
  body : String
deriving DecidableEq, Repr

/-- `dom.getElementsByTagName(tag)[0]`, i.e. the first element with the given
tag in document order, if any. -/
def findTag (doc : List XmlElem) (tag : String) : Option XmlElem :=
  doc.find? (fun e => e.tag == tag)

/-- `el.firstChild.data`: the body of a nonempty element; accessing
`firstChild` of an element with no child nodes raises (`None.data`), modelled
as `none`. -/
def firstChildData (el : XmlElem) : Option String :=
  if el.body = "" then none else some el.body

/-! ### Character-level models of the Python string primitives used -/

/-- Whitespace for Python's `str.strip()`. -/
def isPySpace (c : Char) : Bool :=
  c = ' ' || c = '\t' || c = '\n' || c = '\x0d' || c = '\x0b' || c = '\x0c'

/-- `str.strip()` on the character list. -/
def stripChars (l : List Char) : List Char :=
  ((l.dropWhile isPySpace).reverse.dropWhile isPySpace).reverse

/-- `str.strip()`. -/
def pyStrip (s : String) : String :=
  String.mk (stripChars s.data)

/-- Helper for `pySplit`: accumulates the current piece (reversed). -/
def pySplitAux (sep : Char) : List Char → List Char → List (List Char)
  | [], acc => [acc.reverse]
  | c :: rest, acc =>
    if c = sep then acc.reverse :: pySplitAux sep rest []
    else pySplitAux sep rest (c :: acc)

/-- Python's `str.split(sep)` for a one-character separator; note
`''.split(',') == ['']`. -/
def pySplit (s : String) (sep : Char) : List String :=
  (pySplitAux sep s.data []).map String.mk

/-- Digit run to a number; fails on the empty run or a non-digit. -/
def natOfDigitsAux : List Char → Nat → Option Nat
  | [], acc => some acc
  | c :: rest, acc =>
    if c.isDigit then natOfDigitsAux rest (acc * 10 + (c.toNat - 48)) else none

/-- All-digit parse of a nonempty character list. -/
def natOfDigits (l : List Char) : Option Nat :=
  if l = [] then none else natOfDigitsAux l 0

/-- Python's `int(s)`: surrounding whitespace stripped, optional sign, then
decimal digits; anything else raises `ValueError` (`none`). -/
def pyInt (s : String) : Option Int :=
  match stripChars s.data with
  | '-' :: rest => (natOfDigits rest).map (fun n => -(n : Int))
  | '+' :: rest => (natOfDigits rest).map (fun n => (n : Int))
  | l => (natOfDigits l).map (fun n => (n : Int))

/-- Bytewise (code-point) lexicographic `<` on strings, as Python 2 compares
byte strings. -/
def ltCharList : List Char → List Char → Bool
  | [], [] => false
  | [], _ :: _ => true
  | _ :: _, [] => false
  | a :: as, b :: bs =>
    if a.toNat < b.toNat then true
    else if b.toNat < a.toNat then false
    else ltCharList as bs

/-- Lexicographic `<` on strings. -/
def ltStr (a b : String) : Bool :=
  ltCharList a.data b.data

/-- `'sep'.join(l)`. -/
def pyJoin (sep : String) : List String → String
  | [] => ""
  | [x] => x
  | x :: y :: rest => x ++ sep ++ pyJoin sep (y :: rest)

/-! ### The Tracker datetime format

`Story._ParseDatetimeIntoSecs` does `time.strptime(data[:-4], '%Y/%m/%d
%H:%M:%S')` followed by `calendar.timegm`.  CPython's `strptime` matches `%Y`
against exactly four digits and the other fields against one or two digits
with range checks (month 1-12, day 1-31, hour 0-23, minute 0-59, second 0-61),
compiles the literal whitespace of the format to the regex `\s+` (so the
space between date and time matches any nonempty run of whitespace
characters), requires the whole string to be consumed, and validates the
calendar date (`datetime.date(year, month, day)` must exist, with year at
least 1).  `calendar.timegm` then treats the tuple as UTC. -/

/-- Proleptic Gregorian leap year. -/
def isLeapYear (y : Nat) : Bool :=
  y % 4 = 0 && (y % 100 != 0 || y % 400 = 0)

/-- Days in a month of the proleptic Gregorian calendar. -/
def daysInMonth (y m : Nat) : Nat :=
  if m = 2 then (if isLeapYear y then 29 else 28)
  else if m = 4 || m = 6 || m = 9 || m = 11 then 30
  else 31

/-- Days in the months strictly before month `m` of year `y`. -/
def daysBeforeMonth (y m : Nat) : Nat :=
  ((List.range (m - 1)).map (fun i => daysInMonth y (i + 1))).sum

/-- `datetime.date(y, m, d).toordinal()`: day number with 0001-01-01 as day 1. -/
def toordinal (y m d : Nat) : Nat :=
  365 * (y - 1) + (y - 1) / 4 - (y - 1) / 100 + (y - 1) / 400 + daysBeforeMonth y m + d

/-- `calendar.timegm` on `(y, m, d, h, mi, s)`: seconds since the epoch,
treating the tuple as UTC. -/
def timegm (y m d h mi s : Nat) : Int :=
  ((((toordinal y m d : Int) - 719163) * 24 + h) * 60 + mi) * 60 + s

/-- Take exactly four digits (strptime's `%Y`). -/
def take4Digits : List Char → Option (Nat × List Char)
  | a :: b :: c :: d :: rest =>
    if a.isDigit && b.isDigit && c.isDigit && d.isDigit then
      some ((((a.toNat - 48) * 10 + (b.toNat - 48)) * 10 + (c.toNat - 48)) * 10 + (d.toNat - 48), rest)
    else none
  | _ => none

/-- Take one or two digits greedily (strptime's `%m`/`%d`/`%H`/`%M`/`%S`;
since the characters that follow in the format are never digits, greedy
matching agrees with CPython's alternation patterns, with the range checks
applied by the caller). -/
def take2Digits : List Char → Option (Nat × List Char)
  | [] => none
  | c :: rest =>
    if c.isDigit then
      match rest with
      | c2 :: rest2 =>
        if c2.isDigit then some ((c.toNat - 48) * 10 + (c2.toNat - 48), rest2)
        else some (c.toNat - 48, rest)
      | [] => some (c.toNat - 48, [])
    else none

/-- Consume one expected literal character. -/
def expectChar (c : Char) : List Char → Option (List Char)
  | x :: rest => if x = c then some rest else none
  | [] => none

/-- Consume one or more whitespace characters: CPython's strptime compiles
the whitespace of the format string to the regex `\s+`.  Greedy consumption
is exact here because the field that follows starts with a digit, which is
never whitespace. -/
def expectSpaces : List Char → Option (List Char)
  | x :: rest => if isPySpace x then some (rest.dropWhile isPySpace) else none
  | [] => none

/-- `calendar.timegm(time.strptime(s, '%Y/%m/%d %H:%M:%S'))` on a character
list: `none` models the `ValueError` raised on a non-matching string. -/
def pyStrptimeTimegm (l : List Char) : Option Int := do
  let (y, l) ← take4Digits l
  let l ← expectChar '/' l
  let (m, l) ← take2Digits l
  if m < 1 || 12 < m then none else do
  let l ← expectChar '/' l
  let (d, l) ← take2Digits l
  if d < 1 || 31 < d then none else do
  let l ← expectSpaces l
  let (h, l) ← take2Digits l
  if 23 < h then none else do
  let l ← expectChar ':' l
  let (mi, l) ← take2Digits l
  if 59 < mi then none else do
  let l ← expectChar ':' l
  let (s, l) ← take2Digits l
  if 61 < s then none else do
  if l ≠ [] then none else do
  if y < 1 || daysInMonth y m < d then none else do
  some (timegm y m d h mi s)

/-- `data[:-4]`: everything but the last four characters. -/
def stripLast4 (s : String) : List Char :=
  s.data.take (s.data.length - 4)

/-- Inverse of `toordinal` as days relative to 1970-01-01 (the standard
civil-from-days computation); used only by the encoder's `time.gmtime`. -/
def civilFromDays (z : Int) : Int × Nat × Nat :=
  let z := z + 719468
  let era := z / 146097
  let doe := z - era * 146097
  let yoe := (doe - doe / 1460 + doe / 36524 - doe / 146096) / 365
  let y := yoe + era * 400
  let doy := doe - (365 * yoe + yoe / 4 - yoe / 100)
  let mp := (5 * doy + 2) / 153
  let d := doy - (153 * mp + 2) / 5 + 1
  let m := if mp < 10 then mp + 3 else mp - 9
  (if m ≤ 2 then y + 1 else y, m.toNat, d.toNat)

/-- `time.gmtime(t)` restricted to the six fields the encoder formats. -/
def gmtime (t : Int) : Nat × Nat × Nat × Nat × Nat × Nat :=
  let days := t / 86400 - (if t % 86400 < 0 then 1 else 0)
  let rem := (t - days * 86400).toNat
  let (y, m, d) := civilFromDays days
  (y.toNat, m, d, rem / 3600, rem % 3600 / 60, rem % 60)

/-- Zero-pad to two digits. -/
def pad2 (n : Nat) : String :=
  if n < 10 then "0" ++ toString n else toString n

/-- Zero-pad to four digits. -/
def pad4 (n : Nat) : String :=
  if n < 10 then "000" ++ toString n
  else if n < 100 then "00" ++ toString n
  else if n < 1000 then "0" ++ toString n
  else toString n

/-- `time.strftime('%Y/%m/%d %H:%M:%S UTC', time.gmtime(t))`. -/
def strftimeTracker (t : Int) : String :=
  match gmtime t with
  | (y, m, d, h, mi, s) =>
    pad4 y ++ "/" ++ pad2 m ++ "/" ++ pad2 d ++ " " ++
      pad2 h ++ ":" ++ pad2 mi ++ ":" ++ pad2 s ++ " UTC"

/-! ### The Story entity -/

/-- The Story entity.  Every field defaults to the `none` sentinel meaning
"not specified by the client / not parsed from XML"; labels are a set of
strings, represented canonically as a sorted duplicate-free list. -/
structure Story where
  story_id : Option Int := none
  iteration_number : Option Int := none
  created_at : Option Int := none
  deadline : Option Int := none
  labels : Option (List String) := none
  url : Option String := none
  requested_by : Option String := none
  owned_by : Option String := none
  story_type : Option String := none
  current_state : Option String := none
  description : Option String := none
  name : Option String := none
  estimate : Option String := none
deriving DecidableEq, Repr

/-- The scalar fields `Story.UPDATE_FIELDS` ranges over, as a type. -/
inductive UpdateField where
  | story_type | current_state | name | description | estimate | requested_by | owned_by
deriving DecidableEq, Repr

/-- The XML tag emitted for a whitelist field (its Python attribute name). -/
def UpdateField.tagOf : UpdateField → String
  | .story_type => "story_type"
  | .current_state => "current_state"
  | .name => "name"
  | .description => "description"
  | .estimate => "estimate"
  | .requested_by => "requested_by"
  | .owned_by => "owned_by"

/-- `getattr(self, field_name)` for a whitelist field. -/
def Story.getField (s : Story) : UpdateField → Option String
  | .story_type => s.story_type
  | .current_state => s.current_state
  | .name => s.name
  | .description => s.description
  | .estimate => s.estimate
  | .requested_by => s.requested_by
  | .owned_by => s.owned_by

/-- `Story.UPDATE_FIELDS`, in source order. -/
def Story.UPDATE_FIELDS : List UpdateField :=
  [.story_type, .current_state, .name, .description, .estimate, .requested_by, .owned_by]

/-- The legal story types checked by `Story.SetStoryType`'s assertion. -/
def storyTypes : List String := ["bug", "chore", "release", "feature"]

/-- `Story.SetStoryType`: asserts the value is a legal story type
(`AssertionError`, i.e. `none`, otherwise). -/
def Story.SetStoryType (s : Story) (t : String) : Option Story :=
  if t ∈ storyTypes then some { s with story_type := some t } else none

/-- Insert a label into the canonical sorted duplicate-free representation of
the label set (`set.add`). -/
def insertLabel (x : String) : List String → List String
  | [] => [x]
  | y :: ys =>
    if ltStr x y then x :: y :: ys
    else if x = y then y :: ys
    else y :: insertLabel x ys

/-- Union of a label set with a list of labels (`set.union`). -/
def unionLabels (l : List String) (xs : List String) : List String :=
  xs.foldl (fun acc x => insertLabel x acc) l

/-- `Story.AddLabel`: initializes the set if unset, then adds. -/
def Story.AddLabel (s : Story) (label : String) : Story :=
  { s with labels := some (insertLabel label (s.labels.getD [])) }

/-- `Story.RemoveLabel`: initializes the set to empty if unset; otherwise
removes the label, swallowing the `KeyError` when it is absent. -/
def Story.RemoveLabel (s : Story) (label : String) : Story :=
  match s.labels with
  | none => { s with labels := some [] }
  | some l => { s with labels := some (l.erase label) }

/-- `Story.AddLabelsFromString`: splits on commas, strips each piece, and
unions into the (initialized-if-unset) label set. -/
def Story.AddLabelsFromString (s : Story) (labels : String) : Story :=
  { s with labels := some (unionLabels (s.labels.getD []) ((pySplit labels ',').map pyStrip)) }

/-- `Story.GetLabelsAsString`: `None` when unset, else the sorted
comma-joined labels (the canonical representation is already sorted). -/
def Story.GetLabelsAsString (s : Story) : Option String :=
  s.labels.map (pyJoin ",")

/-- `Story._GetDataFromTag`: `None` when the tag is absent, the empty string
when it is present with no child nodes, else the tag body. -/
def Story._GetDataFromTag (doc : List XmlElem) (tag : String) : Option String :=
  (findTag doc tag).map (fun el => el.body)

/-- `Story._ParseDatetimeIntoSecs`: outer `none` is an uncaught exception
(failed `type` assertion, `firstChild` of an empty element, or strptime
`ValueError`); `some none` is the Python `None` returned when the tag is
absent; the body's last four characters (the timezone indicator) are stripped
unconditionally and the remainder is parsed as `%Y/%m/%d %H:%M:%S` UTC. -/
def Story._ParseDatetimeIntoSecs (doc : List XmlElem) (tag : String) : Option (Option Int) :=
  match findTag doc tag with
  | none => some none
  | some el =>
    if el.typeAttr = some "datetime" then
      match firstChildData el with
      | none => none
      | some data =>
        match pyStrptimeTimegm (stripLast4 data) with
        | none => none
        | some t => some (some t)
    else none

/-- `Story.FromXml` on a parsed document: `none` models any of the uncaught
exceptions (missing or empty `id`/`url`/`story_type`/`current_state`,
unparsable integers, the story-type assertion, or a bad datetime). -/
def Story.FromXml (doc : List XmlElem) : Option Story := do
  let idEl ← findTag doc "id"
  let idData ← firstChildData idEl
  let sid ← pyInt idData
  let urlEl ← findTag doc "url"
  let urlData ← firstChildData urlEl
  let created ← Story._ParseDatetimeIntoSecs doc "created_at"
  let iterationNumber ←
    match Story._GetDataFromTag doc "number" with
    | some it => if it = "" then some none else (pyInt it).map some
    | none => some none
  let stEl ← findTag doc "story_type"
  let stData ← firstChildData stEl
  let csEl ← findTag doc "current_state"
  let csData ← firstChildData csEl
  let deadline ← Story._ParseDatetimeIntoSecs doc "deadline"
  let base : Story :=
    { story_id := some sid
      iteration_number := iterationNumber
      created_at := created
      deadline := deadline
      labels := none
      url := some urlData
      requested_by := Story._GetDataFromTag doc "requested_by"
      owned_by := Story._GetDataFromTag doc "owned_by"
      story_type := none
      current_state := some csData
      description := Story._GetDataFromTag doc "description"
      name := Story._GetDataFromTag doc "name"
      estimate := Story._GetDataFromTag doc "estimate" }
  let withType ← Story.SetStoryType base stData
  match Story._GetDataFromTag doc "labels" with
  | some ls => some (Story.AddLabelsFromString withType ls)
  | none => some withType

/-- The whitelist-field elements of `Story.ToXml` (the `UPDATE_FIELDS` loop:
one element per field whose value is not `None`). -/
def Story.fieldElems (s : Story) : List XmlElem :=
  Story.UPDATE_FIELDS.filterMap fun f =>
    (s.getField f).map fun v => XmlElem.mk f.tagOf none v

/-- The labels element of `Story.ToXml`: emitted only when `self.labels` is
truthy, i.e. a nonempty set. -/
def Story.labelElems (s : Story) : List XmlElem :=
  match s.labels with
  | some l => if l = [] then [] else [XmlElem.mk "labels" none (pyJoin "," l)]
  | none => []

/-- A datetime element of `Story.ToXml`: emitted only when the timestamp is
truthy, i.e. specified and nonzero. -/
def Story.dateElems (tag : String) (v : Option Int) : List XmlElem :=
  match v with
  | some t => if t = 0 then [] else [XmlElem.mk tag (some "datetime") (strftimeTracker t)]
  | none => []

/-- `Story.ToXml` at the DOM level: the children of the `story` root element,
in the order the source appends them. -/
def Story.ToXml (s : Story) : List XmlElem :=
  Story.fieldElems s ++ Story.labelElems s ++
    Story.dateElems "deadline" s.deadline ++ Story.dateElems "created_at" s.created_at

/-! ### The API client and auth provider

HTTP is injected: each operation is a function of the `HttpResp` the server
returns for its one round trip.  A raw response body is modelled as its
well-formedness verdict together with its parse when well-formed, since the
claims only observe the body through the XML parsers. -/

/-- A raw HTTP response body: whether expat/minidom accepts it, and the parsed
element list when they do. -/
structure RawBody where
  wellFormed : Bool
  doc : List XmlElem
deriving DecidableEq, Repr

/-- Outcome of one `opener.open` call: a success body, or an
`urllib2.HTTPError` with status code, message, URL and error body. -/
inductive HttpResp where
  | ok (body : RawBody)
  | err (code : Nat) (msg : String) (url : String) (body : String)
deriving DecidableEq, Repr

/-- The distinguishable failure kinds the client can surface. -/
inductive TrackerError where
  | trackerApi (message : String)
  | expatError
  | noTokensAvailable
  | httpError (code : Nat) (msg : String) (url : String) (body : String)
  | indexError
  | attributeError
deriving DecidableEq, Repr

/-- The error message `Tracker._Api` formats into `TrackerApiException`. -/
def apiErrorMessage (code : Nat) (msg url body : String) : String :=
  "HTTP Status Code: " ++ toString code ++ "\nMessage: " ++ msg ++
    "\nURL: " ++ url ++ "\nError: " ++ body

/-- `Tracker._Api`'s response handling: an `HTTPError` becomes a
`TrackerApiException` carrying the formatted message; otherwise the body is
returned unexamined. -/
def Tracker._Api (resp : HttpResp) : Except TrackerError RawBody :=
  match resp with
  | .ok body => .ok body
  | .err code msg url body => .error (.trackerApi (apiErrorMessage code msg url body))

/-- The expat well-formedness check
(`xml.parsers.expat.ParserCreate('utf-8').Parse(output, True)`), which raises
`ExpatError` on a malformed body. -/
def expatCheck (b : RawBody) : Except TrackerError Unit :=
  if b.wellFormed then .ok () else .error .expatError

/-- `Tracker._ApiQueryStories`' response handling: the body is returned after
the explicit expat well-formedness check. -/
def Tracker._ApiQueryStories (resp : HttpResp) : Except TrackerError RawBody := do
  let output ← Tracker._Api resp
  let _ ← expatCheck output
  .ok output

/-- `Tracker.AddComment`'s response handling: the response body is discarded
without any well-formedness check. -/
def Tracker.AddComment (resp : HttpResp) : Except TrackerError Unit := do
  let _ ← Tracker._Api resp
  .ok ()

/-- `Tracker.DeleteStory`'s response handling: the response body is discarded
without any well-formedness check. -/
def Tracker.DeleteStory (resp : HttpResp) : Except TrackerError Unit := do
  let _ ← Tracker._Api resp
  .ok ()

/-- `urllib.quote_plus` restricted to the ASCII range (the always-safe
characters are letters, digits, `_`, `.` and `-`; a space becomes `+`; other
characters are percent-encoded). -/
def quotePlusChar (c : Char) : List Char :=
  if c = ' ' then ['+']
  else if c.isAlphanum || c = '_' || c = '.' || c = '-' then [c]
  else
    let n := c.toNat % 256
    let hex := fun k => if k < 10 then Char.ofNat (48 + k) else Char.ofNat (55 + k)
    ['%', hex (n / 16), hex (n % 16)]

/-- `urllib.quote_plus`. -/
def quotePlus (s : String) : String :=
  String.mk (s.data.flatMap quotePlusChar)

/-- The request string `Tracker.GetIterationStories` passes to `_Api`:
`'iterations%s?%s' % (iteration, '&'.join(params))`, where the iteration path
segment is present only when the iteration argument is truthy, and the
`offset`/`limit` params only when truthy. -/
def Tracker.GetIterationStoriesRequest (iteration : Option String)
    (offset limit : Option Nat) : String :=
  let iterSeg : String :=
    match iteration with
    | some i => if i = "" then "" else "/" ++ i
    | none => ""
  let params : List String :=
    (match offset with
     | some o => if o = 0 then [] else ["offset=" ++ quotePlus (toString o)]
     | none => []) ++
    (match limit with
     | some l => if l = 0 then [] else ["limit=" ++ quotePlus (toString l)]
     | none => [])
  "iterations" ++ iterSeg ++ "?" ++ pyJoin "&" params

/-- A request to `Tracker._Api`: path relative to the project, HTTP method,
and the XML body (at the DOM level) for non-GET calls. -/
structure ApiRequest where
  path : String
  method : String
  body : Option (List XmlElem)
deriving DecidableEq, Repr

/-- The request `Tracker.UpdateStoryById` issues: a PUT of `story.ToXml()` to
`stories/<story_id>`. -/
def Tracker.UpdateStoryByIdRequest (story_id : Int) (story : Story) : ApiRequest :=
  { path := "stories/" ++ toString story_id, method := "PUT", body := some story.ToXml }

/-- `HostedTrackerAuth.EstablishAuthToken`'s handling of the token-issuance
response: a 404 is turned into `NoTokensAvailableException`, any other
`HTTPError` is re-raised, and a success body is parsed (`ExpatError` when
malformed) and must contain a nonempty `guid` element (`IndexError` /
`AttributeError` otherwise). -/
def HostedTrackerAuth.EstablishAuthToken (resp : HttpResp) : Except TrackerError String :=
  match resp with
  | .err code msg url body =>
    if code = 404 then .error .noTokensAvailable
    else .error (.httpError code msg url body)
  | .ok body =>
    if body.wellFormed then
      match findTag body.doc "guid" with
      | some el =>
        match firstChildData el with
        | some token => .ok token
        | none => .error .attributeError
      | none => .error .indexError
    else .error .expatError

/-! ### Helper lemmas about the encoder -/

/-- A bare, all-unspecified entity. -/
def bareStory : Story := {}

/-- The element tags of the whitelist fields are pairwise distinct. -/
lemma UpdateField.tagOf_inj {a b : UpdateField} (h : a.tagOf = b.tagOf) : a = b := by
  cases a <;> cases b <;> first | rfl | exact absurd h (by decide)

/-- Every element of the whitelist-field loop carries a whitelist tag and the
field's (specified) value. -/
lemma mem_fieldElems {s : Story} {e : XmlElem} (he : e ∈ Story.fieldElems s) :
    ∃ f : UpdateField, e.tag = f.tagOf ∧ s.getField f = some e.body := by
  unfold Story.fieldElems at he
  rcases List.mem_filterMap.mp he with ⟨f, _, hmap⟩
  rcases Option.map_eq_some'.mp hmap with ⟨v, hv, hev⟩
  exact ⟨f, by rw [← hev], by rw [← hev]; exact hv⟩

/-- Every element emitted by the labels branch is tagged `labels`. -/
lemma mem_labelElems_tag {s : Story} {e : XmlElem} (he : e ∈ Story.labelElems s) :
    e.tag = "labels" := by
  unfold Story.labelElems at he
  rcases hsl : s.labels with _ | l
  · rw [hsl] at he
    simp at he
  · rw [hsl] at he
    by_cases hl : l = []
    · simp [hl] at he
    · simp [hl] at he
      rw [he]

/-- Every element emitted by a datetime branch carries that branch's tag. -/
lemma mem_dateElems_tag {tag : String} {v : Option Int} {e : XmlElem}
    (he : e ∈ Story.dateElems tag v) : e.tag = tag := by
  unfold Story.dateElems at he
  rcases v with _ | t
  · simp at he
  · by_cases ht : t = 0
    · simp [ht] at he
    · simp [ht] at he
      rw [he]

/-- Classification of the elements `Story.ToXml` can emit. -/
lemma mem_ToXml_cases (s : Story) (e : XmlElem) (he : e ∈ s.ToXml) :
    (∃ f : UpdateField, e.tag = f.tagOf ∧ s.getField f = some e.body) ∨
      e.tag = "labels" ∨ e.tag = "deadline" ∨ e.tag = "created_at" := by
  simp only [Story.ToXml, List.mem_append] at he
  rcases he with ((h | h) | h) | h
  · exact Or.inl (mem_fieldElems h)
  · exact Or.inr (Or.inl (mem_labelElems_tag h))
  · exact Or.inr (Or.inr (Or.inl (mem_dateElems_tag h)))
  · exact Or.inr (Or.inr (Or.inr (mem_dateElems_tag h)))

/-- `Story.ToXml` never emits an `id` element. -/
lemma findTag_ToXml_id (s : Story) : findTag s.ToXml "id" = none := by
  apply List.find?_eq_none.mpr
  intro e he
  simp only [beq_iff_eq]
  rcases mem_ToXml_cases s e he with ⟨f, hf, _⟩ | h | h | h
  · rw [hf]; cases f <;> decide
  all_goals rw [h]; decide

/-! ### C1 -/

/-- Claim C1, counterexample: a bare entity with only `current_state` set
decodes to nothing at all after encoding (the claim predicts an entity with
`current_state = "accepted"` and all other fields unspecified). -/
theorem decode_encode_counterexample :
    Story.FromXml (Story.ToXml { current_state := some "accepted" }) = none := by decide

/-- Claim C1, amended: decoding the result of encoding a bare entity always
fails, whatever subset of mutable fields was populated, because the decoder
requires an `id` element and the encoder never emits one. -/
theorem decode_of_encode_always_fails (s : Story) :
    Story.FromXml (Story.ToXml s) = none := by
  have hfind := findTag_ToXml_id s
  unfold Story.FromXml
  rw [hfind]
  rfl

/-! ### C2 -/

/-- Claim C2: for a bare entity with only `current_state = "accepted"` set,
the PUT request `Tracker.UpdateStoryById` issues carries a body with exactly
one field element, the `current_state` element, and nothing else. -/
theorem updateStoryById_partial_single_element :
    Tracker.UpdateStoryByIdRequest 1234 { current_state := some "accepted" } =
      { path := "stories/1234", method := "PUT",
        body := some [XmlElem.mk "current_state" none "accepted"] } := by decide

/-! ### C3 -/

/-- Claim C3, counterexample: `AddComment` and `DeleteStory` succeed on a
success-status response whose body is not well-formed XML, so the
well-formedness failure does not surface as an error for them. -/
theorem addComment_deleteStory_no_xml_check :
    Tracker.AddComment (.ok (RawBody.mk false [])) = .ok () ∧
    Tracker.DeleteStory (.ok (RawBody.mk false [])) = .ok () :=
  ⟨rfl, rfl⟩

/-- Claim C3, amended: only the list-query path checks the success response
body for XML well-formedness, surfacing a malformed body as an `ExpatError`
distinct from the HTTP-error kind; `AddComment` and `DeleteStory` discard the
body unchecked and succeed. -/
theorem xml_check_only_on_list_queries (b : RawBody) (h : b.wellFormed = false) :
    Tracker._ApiQueryStories (.ok b) = .error .expatError ∧
    (∀ m, (TrackerError.expatError) ≠ .trackerApi m) ∧
    Tracker.AddComment (.ok b) = .ok () ∧
    Tracker.DeleteStory (.ok b) = .ok () := by
  obtain ⟨wf, doc⟩ := b
  cases wf
  · exact ⟨rfl, fun m hh => TrackerError.noConfusion hh, rfl, rfl⟩
  · exact Bool.noConfusion h

/-- Witness for claim C3's amended theorem at a concrete malformed body. -/
theorem xml_check_only_on_list_queries_witness :
    Tracker._ApiQueryStories (.ok (RawBody.mk false [])) = .error .expatError :=
  (xml_check_only_on_list_queries (RawBody.mk false []) rfl).1

/-! ### C4 -/

/-- The exact textual shape the specification requires of a datetime tag body:
`YYYY/MM/DD HH:MM:SS` followed by a space and a timezone token of either
`GMT` or `UTC` (a refinement-side definition written from the spec's words,
for comparison with the code's behaviour). -/
def specDatetimeShape (s : String) : Bool :=
  match s.data with
  | [y1, y2, y3, y4, c1, mo1, mo2, c2, d1, d2, c3, h1, h2, c4, mi1, mi2, c5, s1, s2, c6, t1, t2, t3] =>
    y1.isDigit && y2.isDigit && y3.isDigit && y4.isDigit &&
      mo1.isDigit && mo2.isDigit && d1.isDigit && d2.isDigit &&
      h1.isDigit && h2.isDigit && mi1.isDigit && mi2.isDigit &&
      s1.isDigit && s2.isDigit &&
      c1 == '/' && c2 == '/' && c3 == ' ' && c4 == ':' && c5 == ':' && c6 == ' ' &&
      ((t1 == 'G' && t2 == 'M' && t3 == 'T') || (t1 == 'U' && t2 == 'T' && t3 == 'C'))
  | _ => false

/-- Claim C4, counterexample: a datetime body whose trailing token is `XYZ`
does not match the required shape, yet decoding succeeds (and yields the same
timestamp as the `UTC`-suffixed body would). -/
theorem datetime_bad_suffix_accepted :
    specDatetimeShape "2024/01/15 10:30:00 XYZ" = false ∧
    Story._ParseDatetimeIntoSecs
        [XmlElem.mk "deadline" (some "datetime") "2024/01/15 10:30:00 XYZ"] "deadline"
      = some (some 1705314600) := by decide

/-- `Story._ParseDatetimeIntoSecs` on a document whose matching element is
well-attributed with a nonempty body reduces to the strip-and-strptime
computation on that body. -/
lemma parseDatetime_singleton (body : String) (hb : ¬ body = "") :
    Story._ParseDatetimeIntoSecs [XmlElem.mk "deadline" (some "datetime") body] "deadline"
      = (pyStrptimeTimegm (stripLast4 body)).map some := by
  have hfc : firstChildData (XmlElem.mk "deadline" (some "datetime") body) = some body := by
    unfold firstChildData
    rw [if_neg hb]
  show (match firstChildData (XmlElem.mk "deadline" (some "datetime") body) with
        | none => none
        | some data =>
          match pyStrptimeTimegm (stripLast4 data) with
          | none => none
          | some t => some (some t)) = (pyStrptimeTimegm (stripLast4 body)).map some
  rw [hfc]
  show (match pyStrptimeTimegm (stripLast4 body) with
        | none => none
        | some t => some (some t)) = (pyStrptimeTimegm (stripLast4 body)).map some
  cases pyStrptimeTimegm (stripLast4 body) <;> rfl

/-- Claim C4, amended: the decoder strips the final four characters of the tag
body unconditionally — any four-character suffix is accepted, the timezone
token is never validated — and succeeds exactly when the remainder parses as
`%Y/%m/%d %H:%M:%S` under CPython strptime semantics — which also admit
one-digit fields and any nonempty whitespace run between date and time — the
result then being interpreted as UTC seconds-since-epoch (witness the spec's
example value, also with a doubled space). -/
theorem datetime_decode_strips_any_four_chars :
    (∀ core suf : List Char, suf.length = 4 →
      Story._ParseDatetimeIntoSecs
          [XmlElem.mk "deadline" (some "datetime") (String.mk (core ++ suf))] "deadline"
        = (pyStrptimeTimegm core).map some) ∧
    pyStrptimeTimegm "2024/01/15 10:30:00".data = some 1705314600 ∧
    pyStrptimeTimegm "2024/01/15  10:30:00".data = some 1705314600 := by
  refine ⟨?_, by decide, by decide⟩
  · intro core suf h4
    have hne : ¬ (String.mk (core ++ suf) = "") := by
      simp only [String.ext_iff]
      intro h
      rcases List.append_eq_nil.mp h with ⟨-, h2⟩
      rw [h2] at h4
      exact absurd h4 (by decide)
    have hstrip : stripLast4 (String.mk (core ++ suf)) = core := by
      have hlen : (core ++ suf).length - 4 = core.length := by
        rw [List.length_append, h4]
        omega
      unfold stripLast4
      rw [show (String.mk (core ++ suf)).data = core ++ suf from rfl, hlen]
      exact List.take_left core suf
    rw [parseDatetime_singleton (String.mk (core ++ suf)) hne, hstrip]

/-- Witness for claim C4's amended theorem: the spec's canonical datetime body
decodes to the expected epoch value when the four-character suffix is the
legitimate UTC indicator. -/
theorem datetime_decode_strips_any_four_chars_witness :
    Story._ParseDatetimeIntoSecs
        [XmlElem.mk "deadline" (some "datetime")
          (String.mk ("2024/01/15 10:30:00".data ++ " UTC".data))] "deadline"
      = some (some 1705314600) := by
  rw [datetime_decode_strips_any_four_chars.1 "2024/01/15 10:30:00".data " UTC".data (by decide)]
  decide

/-! ### C5 -/

/-- Claim C5: a 404 from the token-issuance endpoint surfaces as the distinct
`NoTokensAvailable` error, not as the re-raised HTTP error and not as the
generic API error. -/
theorem establish_auth_token_404 (msg url body : String) :
    HostedTrackerAuth.EstablishAuthToken (.err 404 msg url body) = .error .noTokensAvailable ∧
    TrackerError.noTokensAvailable ≠ .httpError 404 msg url body ∧
    (∀ m, TrackerError.noTokensAvailable ≠ .trackerApi m) := by
  refine ⟨rfl, fun h => TrackerError.noConfusion h, fun m h => TrackerError.noConfusion h⟩

/-! ### C6 -/

/-- A server story document carrying the required fields and a `labels` tag
with the value `"b, a, a"`. -/
def labelUnionDoc : List XmlElem :=
  [XmlElem.mk "id" (some "integer") "1",
   XmlElem.mk "url" none "http://x/1",
   XmlElem.mk "story_type" none "bug",
   XmlElem.mk "current_state" none "started",
   XmlElem.mk "labels" none "b, a, a"]

/-- The entity `labelUnionDoc` decodes to. -/
def labelUnionStory : Story :=
  { story_id := some 1, url := some "http://x/1", story_type := some "bug",
    current_state := some "started", labels := some ["a", "b"] }

/-- Claim C6: decoding an item whose `labels` tag holds `"b, a, a"` yields
the trimmed, deduplicated label set `{a, b}`, and re-encoding that entity
serializes the labels as the single sorted comma-joined string `"a,b"`. -/
theorem labels_trim_dedup_sorted_reencode :
    Story.FromXml labelUnionDoc = some labelUnionStory ∧
    labelUnionStory.labels = some ["a", "b"] ∧
    labelUnionStory.GetLabelsAsString = some "a,b" ∧
    labelUnionStory.ToXml.filter (fun e => e.tag == "labels")
      = [XmlElem.mk "labels" none "a,b"] := by decide

/-! ### C7 -/

/-- The joined query parameters of `Tracker.GetIterationStories`. -/
def iterationParamString (offset limit : Option Nat) : String :=
  pyJoin "&"
    ((match offset with
      | some o => if o = 0 then [] else ["offset=" ++ quotePlus (toString o)]
      | none => []) ++
     (match limit with
      | some l => if l = 0 then [] else ["limit=" ++ quotePlus (toString l)]
      | none => []))

/-- String-append computation for the omitted-iteration request path. -/
lemma iterations_path_none (j : String) :
    "iterations" ++ "" ++ "?" ++ j = "iterations?" ++ j := by
  obtain ⟨cs⟩ := j
  rfl

/-- String-append computation for the explicit `current` request path. -/
lemma iterations_path_current (j : String) :
    "iterations" ++ ("/" ++ "current") ++ "?" ++ j = "iterations/current?" ++ j := by
  obtain ⟨cs⟩ := j
  rfl

/-- Claim C7, counterexample: with the iteration id omitted the issued request
is the bare `iterations` collection path, which differs from the request that
names the current iteration. -/
theorem iteration_omitted_request_counterexample :
    Tracker.GetIterationStoriesRequest none none none = "iterations?" ∧
    Tracker.GetIterationStoriesRequest (some "current") none none = "iterations/current?" ∧
    ("iterations?" : String) ≠ "iterations/current?" := by decide

/-- Claim C7, amended: calling `GetIterationStories` with the iteration id
omitted requests the bare iterations collection (all iterations of the
project, no iteration path segment); the current iteration is targeted only by
passing an explicit iteration id such as `"current"`. -/
theorem iteration_omitted_targets_all_iterations (offset limit : Option Nat) :
    Tracker.GetIterationStoriesRequest none offset limit
        = "iterations?" ++ iterationParamString offset limit ∧
    Tracker.GetIterationStoriesRequest (some "current") offset limit
        = "iterations/current?" ++ iterationParamString offset limit :=
  ⟨iterations_path_none (iterationParamString offset limit),
   iterations_path_current (iterationParamString offset limit)⟩

/-! ### C8 -/

/-- Claim C8, counterexample: removing a label from an entity whose label set
is still unspecified does not leave the entity unchanged — it initializes the
label set to the (specified) empty set. -/
theorem removeLabel_unspecified_mutates :
    Story.RemoveLabel bareStory "x" ≠ bareStory := by decide

/-- Claim C8, amended: removing a label that is not in a specified label set
is a no-op and raises no error; but when the label set is still unspecified,
`RemoveLabel` changes the entity by initializing the set to the empty set
(still raising no error). -/
theorem removeLabel_absent_noop (s : Story) (label : String) :
    (∀ l, s.labels = some l → label ∉ l → s.RemoveLabel label = s) ∧
    (s.labels = none → s.RemoveLabel label = { s with labels := some [] }) := by
  constructor
  · intro l hl hmem
    simp only [Story.RemoveLabel, hl]
    rw [List.erase_of_not_mem hmem, ← hl]
  · intro h
    simp only [Story.RemoveLabel, h]

/-- A story whose label set is specified as `{a, b}`. -/
def labelStoryAB : Story := { labels := some ["a", "b"] }

/-- Witness for claim C8's amended theorem: removing the absent label `c`
from `{a, b}` is a no-op, and removing from an unspecified set yields the
empty set. -/
theorem removeLabel_absent_noop_witness :
    Story.RemoveLabel labelStoryAB "c" = labelStoryAB ∧
    Story.RemoveLabel bareStory "x" = { bareStory with labels := some [] } :=
  ⟨(removeLabel_absent_noop labelStoryAB "c").1 ["a", "b"] rfl (by decide),
   (removeLabel_absent_noop bareStory "x").2 rfl⟩

/-! ### C9 -/

/-- Claim C9: explicitly setting a whitelist field to the empty string makes
`ToXml` emit that element with an empty body, while leaving the field
unspecified omits the element entirely — so "explicitly cleared" and
"unspecified" are distinguishable in an update body. -/
theorem toXml_empty_string_vs_unspecified (s : Story) (f : UpdateField) :
    (s.getField f = some "" → XmlElem.mk f.tagOf none "" ∈ s.ToXml) ∧
    (s.getField f = none → ∀ e ∈ s.ToXml, e.tag ≠ f.tagOf) := by
  constructor
  · intro h
    simp only [Story.ToXml, List.mem_append]
    left; left; left
    unfold Story.fieldElems
    exact List.mem_filterMap.mpr ⟨f, by cases f <;> decide, by rw [h]; rfl⟩
  · intro h e he htag
    rcases mem_ToXml_cases s e he with ⟨f', hf', hget⟩ | hl | hd | hc
    · have hff : f' = f := UpdateField.tagOf_inj (hf' ▸ htag)
      rw [hff, h] at hget
      exact Option.noConfusion hget
    · rw [hl] at htag
      cases f <;> exact absurd htag (by decide)
    · rw [hd] at htag
      cases f <;> exact absurd htag (by decide)
    · rw [hc] at htag
      cases f <;> exact absurd htag (by decide)

/-- A story with `name` explicitly cleared to the empty string. -/
def emptyNameStory : Story := { name := some "" }

/-- Witness for claim C9: the explicitly-cleared `name` is emitted with an
empty body, and a bare story's encoding contains no `description` element. -/
theorem toXml_empty_string_vs_unspecified_witness :
    XmlElem.mk "name" none "" ∈ emptyNameStory.ToXml ∧
    (∀ e ∈ bareStory.ToXml, e.tag ≠ "description") :=
  ⟨(toXml_empty_string_vs_unspecified emptyNameStory .name).1 rfl,
   (toXml_empty_string_vs_unspecified bareStory .description).2 rfl⟩

/-! ### C10 -/

/-- Claim C10: `ToXml` tests `labels`, `deadline` and `created_at` by Python
truthiness, so an explicitly-empty label set and explicit epoch (zero)
timestamps are encoded exactly as if the fields were unspecified: the element
is omitted and the values cannot be transmitted. -/
theorem toXml_truthiness_drops_falsy (s : Story) :
    Story.ToXml { s with labels := some [] } = Story.ToXml { s with labels := none } ∧
    Story.ToXml { s with deadline := some 0 } = Story.ToXml { s with deadline := none } ∧
    Story.ToXml { s with created_at := some 0 } = Story.ToXml { s with created_at := none } :=
  ⟨rfl, rfl, rfl⟩

/-! ### Additional concrete witnesses -/

/-- Witness for claim C1's amended theorem at a concrete entity. -/
theorem decode_of_encode_always_fails_witness :
    Story.FromXml (Story.ToXml labelStoryAB) = none :=
  decode_of_encode_always_fails labelStoryAB

/-- Witness for claim C5's theorem at the concrete token endpoint response. -/
theorem establish_auth_token_404_witness :
    HostedTrackerAuth.EstablishAuthToken
        (.err 404 "Not Found" "https://www.pivotaltracker.com/services/tokens/active" "")
      = .error .noTokensAvailable :=
  (establish_auth_token_404 "Not Found"
    "https://www.pivotaltracker.com/services/tokens/active" "").1

/-- Witness for claim C7's amended theorem at concrete offset and limit. -/
theorem iteration_omitted_targets_all_iterations_witness :
    Tracker.GetIterationStoriesRequest none (some 5) (some 10)
      = "iterations?offset=5&limit=10" := by
  rw [(iteration_omitted_targets_all_iterations (some 5) (some 10)).1]
  decide

/-- Witness for claim C10's theorem at a concrete entity. -/
theorem toXml_truthiness_drops_falsy_witness :
    Story.ToXml { bareStory with deadline := some 0 }
      = Story.ToXml { bareStory with deadline := none } :=
  (toXml_truthiness_drops_falsy bareStory).2.1
